import Mathlib

/-!
Shallow embedding of the telegram→whatsapp forwarding pipeline
(`src/server/services/TelegramBridge.js`, `src/server/services/WhatsAppManager.js`,
`src/server/server.js`) and a verification of the specified properties.

JS strings are modelled as lists of UTF-16 code units (`Text`); Telegram
entity offsets are measured in those units, and `String.prototype.slice`
becomes `List.take`/`List.drop`.  V8's `Array.prototype.sort` is stable
(ES2019), which `List.insertionSort` reproduces.
-/

namespace Bridge

/-- A JS string, viewed as its sequence of UTF-16 code units. -/
abbrev Text := List Char

/-- A Telegram formatting entity `{ offset, length, type }`
(`_parseEntities`, TelegramBridge.js). -/
structure Entity where
  offset : Nat
  length : Nat
  type : String
deriving DecidableEq

/-- The backtick code unit (0x60). -/
def btChar : Char := Char.ofNat 96

/-- Three backticks, WhatsApp's monospace delimiter. -/
def bt3 : Text := [btChar, btChar, btChar]

/-- The `switch (type)` of `_parseEntities`: the delimiter pair spliced
around an entity, `none` for the `default: continue` branch.
`text_link` deliberately contributes empty delimiters (left as-is). -/
def entityMarkers (t : String) : Option (Text × Text) :=
  if t = "bold" then some (['*'], ['*'])
  else if t = "italic" then some (['_'], ['_'])
  else if t = "strikethrough" then some (['~'], ['~'])
  else if t = "code" then some (bt3, bt3)
  else if t = "pre" then some (bt3 ++ ['\n'], '\n' :: bt3)
  else if t = "spoiler" then some (['|', '|', ' '], [' ', '|', '|'])
  else if t = "text_link" then some ([], [])
  else none

/-- One loop iteration of `_parseEntities`: splice the delimiter pair of `e`
into `r` at `[offset, offset + length)`
(`result = before + prefix + inner + suffix + after`). -/
def spliceEntity (r : Text) (e : Entity) : Text :=
  match entityMarkers e.type with
  | none => r
  | some (pre, suf) =>
      r.take e.offset ++ pre ++ ((r.take (e.offset + e.length)).drop e.offset)
        ++ suf ++ r.drop (e.offset + e.length)

/-- Descending-offset order used by `sort((a, b) => b.offset - a.offset)`. -/
def entDesc (a b : Entity) : Prop := b.offset ≤ a.offset

instance : DecidableRel entDesc := fun a b => Nat.decLe b.offset a.offset

instance : IsTotal Entity entDesc := ⟨fun a b => Nat.le_total b.offset a.offset⟩

instance : IsTrans Entity entDesc := ⟨fun _ _ _ hab hbc => Nat.le_trans hbc hab⟩

/-- `[...entities].sort((a, b) => b.offset - a.offset)` — a stable sort by
descending offset. -/
def sortEntitiesDesc (entities : List Entity) : List Entity :=
  entities.insertionSort entDesc

/-- `_parseEntities(text, entities)` (TelegramBridge.js): early-return on a
missing/empty entity list, otherwise splice delimiters from the end of the
string towards the start. -/
def parseEntities (text : Text) (entities : List Entity) : Text :=
  if entities.isEmpty then text
  else (sortEntitiesDesc entities).foldl spliceEntity text

/-! ## Data model of the bridge -/

/-- The base64 media object produced by `_downloadTelegramFile`
(`{ mimetype, data, filename }`). -/
structure Media where
  mimetype : String
  data : String
  filename : String
deriving DecidableEq

/-- A Telegram file descriptor (`document` / `video` / `audio` / `voice` /
`animation` message fields). -/
structure TgFile where
  file_id : String
  mime_type : Option String
  file_name : Option String
deriving DecidableEq

/-- A Telegram sticker (`msg.sticker`). -/
structure TgSticker where
  emoji : Option Text
deriving DecidableEq

/-- The fields of a Telegram message object read by the bridge.  `photo` is
the multi-resolution array of file ids (the code takes the last = highest
resolution). -/
structure TgMsg where
  message_id : Nat
  text : Option Text
  entities : List Entity
  caption : Option Text
  caption_entities : List Entity
  photo : Option (List String)
  document : Option TgFile
  video : Option TgFile
  sticker : Option TgSticker
  animation : Option TgFile
  audio : Option TgFile
  voice : Option TgFile
deriving DecidableEq

/-- A Telegraf update context: exactly one of `message` / `channelPost` is
normally present. -/
structure Ctx where
  message : Option TgMsg
  channelPost : Option TgMsg
deriving DecidableEq

/-- `ctx.message || ctx.channelPost`. -/
def ctxMsg (c : Ctx) : Option TgMsg :=
  match c.message with
  | some m => some m
  | none => c.channelPost

/-- The settings consumed by the forwarding pipeline (db/database.js
defaults: empty strings). -/
structure Settings where
  footerText : Text
  whatsappGroupId : Option Text
deriving DecidableEq

/-- The canonical payload `{ text, media? }` built by `_buildPayload`. -/
structure Payload where
  text : Text
  media : Option Media
deriving DecidableEq

/-- JS `a || d` on an optional string: `undefined` and the empty string are
both falsy. -/
def jsOr (a : Option String) (d : String) : String :=
  match a with
  | some s => if s = "" then d else s
  | none => d

/-- JS `String.prototype.trim()` on a code-unit list. -/
def jsTrim (t : Text) : Text :=
  ((t.dropWhile Char.isWhitespace).reverse.dropWhile Char.isWhitespace).reverse

/-- `settings.whatsappGroupId?.trim()` followed by the `if (!waGroupId)`
falsiness check shared by `_processMediaGroup` and `_processSingleMessage`:
the destination id actually used, or `none` when unset/blank. -/
def effectiveGroupId (s : Settings) : Option Text :=
  match s.whatsappGroupId with
  | none => none
  | some g => if jsTrim g = [] then none else some (jsTrim g)

/-- `_downloadTelegramFile(ctx, fileId, mimetype, filename)`: the download
itself is abstracted by `fetch : file_id → base64 bytes`; the awaited result
is `{ mimetype, data, filename: filename || 'file' }`. -/
def downloadTelegramFile (fetch : String → String) (fileId : String)
    (mimetype : String) (filename : Option String) : Media :=
  { mimetype := mimetype, data := fetch fileId, filename := jsOr filename "file" }

/-- The footer fragment of `_buildPayload`:
`settings.footerText ? "\n\n" + settings.footerText : ""`. -/
def footerOf (s : Settings) : Text :=
  if s.footerText = [] then [] else '\n' :: '\n' :: s.footerText

/-- `_buildPayload(ctx, settings)` (TelegramBridge.js): normalise one
Telegram message to `{ text, media? }`, or `none` for unsupported kinds.
Branch order follows the source: text, photo, document, video, sticker,
animation, audio, voice. -/
def buildPayload (fetch : String → String) (s : Settings) (c : Ctx) : Option Payload :=
  let footer := footerOf s
  match ctxMsg c with
  | none => none
  | some msg =>
    let caption :=
      match msg.caption with
      | some cap => parseEntities cap msg.caption_entities ++ footer
      | none => footer
    match msg.text with
    | some t => some { text := parseEntities t msg.entities ++ footer, media := none }
    | none =>
    match msg.photo with
    | some sizes =>
        some { text := caption,
               media := some (downloadTelegramFile fetch (sizes.getLastD "") "image/jpeg" none) }
    | none =>
    match msg.document with
    | some d =>
        some { text := caption,
               media := some (downloadTelegramFile fetch d.file_id
                 (jsOr d.mime_type "application/octet-stream") d.file_name) }
    | none =>
    match msg.video with
    | some v =>
        some { text := caption,
               media := some (downloadTelegramFile fetch v.file_id
                 (jsOr v.mime_type "video/mp4") (some (jsOr v.file_name "video.mp4"))) }
    | none =>
    match msg.sticker with
    | some st =>
        some { text := "[Sticker] ".toList ++ st.emoji.getD [] ++ footer, media := none }
    | none =>
    match msg.animation with
    | some a =>
        some { text := if footer = [] then [] else footer,
               media := some (downloadTelegramFile fetch a.file_id "video/mp4"
                 (some "animation.mp4")) }
    | none =>
    match msg.audio with
    | some a =>
        some { text := caption,
               media := some (downloadTelegramFile fetch a.file_id
                 (jsOr a.mime_type "audio/mpeg") (some (jsOr a.file_name "audio.mp3"))) }
    | none =>
    match msg.voice with
    | some v =>
        some { text := caption,
               media := some (downloadTelegramFile fetch v.file_id
                 (jsOr v.mime_type "audio/ogg") (some "voice.ogg")) }
    | none => none

/-- The text a payload would carry with no footer configured — the
footer-independent part of each `_buildPayload` branch.  Used to state that
the footer is a pure suffix on every payload kind. -/
def payloadBaseText (c : Ctx) : Option Text :=
  match ctxMsg c with
  | none => none
  | some msg =>
    let captionBase :=
      match msg.caption with
      | some cap => parseEntities cap msg.caption_entities
      | none => []
    match msg.text with
    | some t => some (parseEntities t msg.entities)
    | none =>
    match msg.photo with
    | some _ => some captionBase
    | none =>
    match msg.document with
    | some _ => some captionBase
    | none =>
    match msg.video with
    | some _ => some captionBase
    | none =>
    match msg.sticker with
    | some st => some ("[Sticker] ".toList ++ st.emoji.getD [])
    | none =>
    match msg.animation with
    | some _ => some []
    | none =>
    match msg.audio with
    | some _ => some captionBase
    | none =>
    match msg.voice with
    | some _ => some captionBase
    | none => none

/-! ## Media-group aggregation and dispatch -/

/-- The sort key of `_processMediaGroup`'s comparator:
`(a.message || a.channelPost).message_id`. -/
def ctxKey (c : Ctx) : Nat :=
  ((ctxMsg c).map TgMsg.message_id).getD 0

/-- Ascending message-id order on contexts. -/
def ctxLE (a b : Ctx) : Prop := ctxKey a ≤ ctxKey b

/-- Strict message-id order on contexts. -/
def ctxLT (a b : Ctx) : Prop := ctxKey a < ctxKey b

instance : DecidableRel ctxLE := fun a b => Nat.decLe (ctxKey a) (ctxKey b)

instance : IsTotal Ctx ctxLE := ⟨fun a b => Nat.le_total (ctxKey a) (ctxKey b)⟩

instance : IsTrans Ctx ctxLE := ⟨fun _ _ _ => Nat.le_trans⟩

instance : IsTrans Ctx ctxLT := ⟨fun _ _ _ => Nat.lt_trans⟩

instance : IsAntisymm Ctx ctxLT :=
  ⟨fun _ _ h h2 => absurd h2 (Nat.lt_asymm h)⟩

/-- `ctxList.sort((a, b) => msgA.message_id - msgB.message_id)` — a stable
ascending sort by message id. -/
def sortCtxByMsgId (l : List Ctx) : List Ctx :=
  l.insertionSort ctxLE

/-- What a run of `_processMediaGroup` emits: the ordered dispatch
initiations `(waGroupId, payload)` handed to `_dispatchPayload`, and the
log events `(level, tag)` the function itself writes. -/
structure GroupResult where
  dispatches : List (Text × Payload)
  logs : List (String × String)
deriving DecidableEq

/-- `_processMediaGroup(ctxList, settings)`: sort members by message id,
return early when no destination id is configured, otherwise build all
payloads (in parallel — `Promise.all` keeps positional order) and initiate
dispatch of the non-null ones sequentially in sorted order. -/
def processMediaGroup (fetch : String → String) (s : Settings)
    (ctxList : List Ctx) : GroupResult :=
  let logs0 := [("info", "processing_album")]
  let sorted := sortCtxByMsgId ctxList
  match effectiveGroupId s with
  | none => { dispatches := [], logs := logs0 }
  | some gid =>
      let payloads := sorted.map (buildPayload fetch s)
      { dispatches := (payloads.filterMap id).map (fun p => (gid, p)),
        logs := logs0 ++ [("info", "all_media_downloaded"), ("success", "album_sent")] }

/-- `_processSingleMessage(ctx, settings)`: drop without any log when no
destination id is configured, otherwise build the payload and initiate
dispatch if it is non-null.  Returns (dispatch initiations, own logs). -/
def processSingleMessage (fetch : String → String) (s : Settings)
    (c : Ctx) : List (Text × Payload) × List (String × String) :=
  match effectiveGroupId s with
  | none => ([], [])
  | some gid =>
      match buildPayload fetch s c with
      | some p => ([(gid, p)], [])
      | none => ([], [])

/-! ## The dispatcher and the WhatsApp send gate -/

/-- A persisted queue entry: `queue.enqueue({ chatId: waGroupId, ...payload })`. -/
structure QueueEntry where
  chatId : Text
  text : Text
  media : Option Media
deriving DecidableEq

/-- `WhatsAppManager.isReady`: `status === 'ready'`. -/
def waIsReady (status : String) : Bool := status = "ready"

/-- The observable outcome of one `_dispatchPayload(waGroupId, payload)`
call, given the connection status, whether the WhatsApp send would succeed,
and the delivery queue before the call. -/
structure DispatchResult where
  queueAfter : List QueueEntry
  sendAttempted : Bool
  sentOk : Bool
  errorLogged : Bool
deriving DecidableEq

/-- `_dispatchPayload` (TelegramBridge.js): if `wa.isReady`, attempt the
send (an exception is caught and logged); otherwise enqueue the payload.
`enqueue` always succeeds. -/
def dispatchPayload (status : String) (sendOk : Bool) (gid : Text)
    (p : Payload) (queue : List QueueEntry) : DispatchResult :=
  if waIsReady status then
    if sendOk then
      { queueAfter := queue, sendAttempted := true, sentOk := true, errorLogged := false }
    else
      { queueAfter := queue, sendAttempted := true, sentOk := false, errorLogged := true }
  else
    { queueAfter := queue ++ [{ chatId := gid, text := p.text, media := p.media }],
      sendAttempted := false, sentOk := false, errorLogged := false }

/-- A call actually issued to the underlying whatsapp-web.js client. -/
inductive ClientCall where
  | media (chatId : Text) (m : Media) (caption : Text)
  | text (chatId : Text) (body : Text)
deriving DecidableEq

/-- `WhatsAppManager.sendMessage(chatId, text, media)`: throw before any
client interaction unless `status === 'ready'`; otherwise issue exactly one
client send (media with caption, or plain text). -/
def waSendMessage (status : String) (chatId : Text) (text : Text)
    (media : Option Media) : Except String ClientCall :=
  if status ≠ "ready" then .error "WhatsApp לא מחובר"
  else
    match media with
    | some m =>
        .ok (.media chatId
          { mimetype := m.mimetype, data := m.data,
            filename := if m.filename = "" then "file" else m.filename } text)
    | none => .ok (.text chatId text)

/-! ## Ready transition and queue flush (server.js wrapper) -/

/-- Modelled from the spec: the state owned by `QueueService`
(QueueService.js is not among the sources; only its callers are).  Per
spec §4.4 the queue holds pending entries and a boolean in-progress flush
flag. -/
structure QueueState where
  entries : List QueueEntry
  flushing : Bool
deriving DecidableEq

/-- Modelled from the spec: `QueueService.flush(sendFn)` (QueueService.js is
not among the sources).  Per spec §4.4 flush is non-reentrant — a boolean
in-progress guard makes a call during an active flush a no-op — and
otherwise drains the queue head-to-tail with the supplied send function
(retry/backoff is abstracted: the head-of-line prefix of successful sends
is removed).  Returns the new state and how many flush loops started. -/
def flushQueue (send : QueueEntry → Bool) (st : QueueState) : QueueState × Nat :=
  if st.flushing then (st, 0)
  else ({ entries := st.entries.dropWhile send, flushing := false }, 1)

/-- The server-side state touched by the monkey-patched `_setStatus`. -/
structure ServerState where
  status : String
  queue : QueueState
deriving DecidableEq

/-- The wrapped `waManager._setStatus` of server.js: run the original
(store the status), and when the new status is `'ready'` invoke
`onWhatsAppReady` — which flushes the delivery queue — exactly once.
Returns (state, `onWhatsAppReady` invocations, flush loops started). -/
def setStatusWrapped (send : QueueEntry → Bool) (status : String)
    (st : ServerState) : ServerState × Nat × Nat :=
  let st1 : ServerState := { st with status := status }
  if status = "ready" then
    let fr := flushQueue send st1.queue
    ({ st1 with queue := fr.1 }, 1, fr.2)
  else (st1, 0, 0)

/-! ## Media-group debounce (`_handleMediaGroup`) -/

/-- The 2000 ms debounce window of `_handleMediaGroup`. -/
def debounceMs : Nat := 2000

/-- One arrival step for a single `media_group_id`: state is
(active buffer with its timer deadline, flushes emitted so far).  A pending
timer whose deadline already passed fires (flushing the buffer) before the
arrival is buffered; the arrival then resets the deadline to
`now + debounceMs` (`clearTimeout` + `setTimeout(…, 2000)`). -/
def debStep {α : Type} (st : Option (List α × Nat) × List (List α))
    (arrival : Nat × α) : Option (List α × Nat) × List (List α) :=
  match st, arrival with
  | (none, out), (t, m) => (some ([m], t + debounceMs), out)
  | (some (buf, d), out), (t, m) =>
      if d < t then (some ([m], t + debounceMs), out ++ [buf])
      else (some (buf ++ [m], t + debounceMs), out)

/-- Run the debounce over a time-ordered arrival list `(time, member)` for
one group key and collect the flushed buffers, including the final flush
when the last timer expires. -/
def runDebounce {α : Type} (arrivals : List (Nat × α)) : List (List α) :=
  match arrivals.foldl debStep (none, []) with
  | (none, out) => out
  | (some (buf, _), out) => out ++ [buf]

/-- Every listed arrival happens strictly less than `debounceMs` after the
preceding one (first compared against `tPrev`). -/
def gapsOkB {α : Type} (tPrev : Nat) : List (Nat × α) → Bool
  | [] => true
  | (t, _) :: rest => decide (t < tPrev + debounceMs) && gapsOkB t rest

/-- The time of the last arrival in the list (`tPrev` when empty). -/
def lastT {α : Type} (tPrev : Nat) : List (Nat × α) → Nat
  | [] => tPrev
  | (t, _) :: rest => lastT t rest

/-! ## Concrete fixtures for witnesses -/

/-- The six entity kinds the parser translates into WhatsApp delimiters. -/
def translatedKind (t : String) : Bool :=
  decide (t = "bold") || decide (t = "italic") || decide (t = "strikethrough")
    || decide (t = "code") || decide (t = "pre") || decide (t = "spoiler")

/-- A text-only album member with the given message id. -/
def msgEx (i : Nat) : TgMsg :=
  { message_id := i, text := some ['a'], entities := [], caption := none,
    caption_entities := [], photo := none, document := none, video := none,
    sticker := none, animation := none, audio := none, voice := none }

/-- A channel-post context around `msgEx`. -/
def ctxEx (i : Nat) : Ctx := { message := some (msgEx i), channelPost := none }

/-- A trivial fetcher for concrete runs. -/
def fetch0 : String → String := fun _ => "QUJD"

/-- Settings with a configured destination group. -/
def sGrp : Settings := { footerText := [], whatsappGroupId := some "g".toList }

/-- Settings with a non-empty footer and a configured destination. -/
def sFoot : Settings := { footerText := "f".toList, whatsappGroupId := some "g".toList }

/-- A photo message carrying a caption. -/
def ctxPhoto : Ctx :=
  { message := some
      { message_id := 1, text := none, entities := [], caption := some "hi".toList,
        caption_entities := [], photo := some ["p1"], document := none, video := none,
        sticker := none, animation := none, audio := none, voice := none },
    channelPost := none }

/-- The payload `_buildPayload` produces for `ctxPhoto` under `sFoot`. -/
def pPhoto : Payload :=
  { text := "hi\n\nf".toList,
    media := some { mimetype := "image/jpeg", data := "QUJD", filename := "file" } }

/-- The empty payload, for concrete dispatch runs. -/
def pay0 : Payload := { text := [], media := none }

/-- A send function that always succeeds. -/
def sendAllOk : QueueEntry → Bool := fun _ => true

/-- Server state with no flush in progress. -/
def stIdle : ServerState :=
  { status := "disconnected", queue := { entries := [], flushing := false } }

/-- Server state with a flush already running. -/
def stBusy : ServerState :=
  { status := "ready", queue := { entries := [], flushing := true } }

/-- Settings whose destination id is blank after trimming. -/
def sBlank : Settings := { footerText := [], whatsappGroupId := some "   ".toList }

/-! ## Parser lemmas -/

/-- Recombining a slice: `before ++ inner ++ after = whole`. -/
lemma slice_recombine {α : Type} (r : List α) (s k : Nat) :
    r.take s ++ (r.take (s + k)).drop s ++ r.drop (s + k) = r := by
  have h1 : (r.take (s + k)).take s = r.take s := by
    rw [List.take_take, Nat.min_eq_left (Nat.le_add_right s k)]
  calc
    r.take s ++ (r.take (s + k)).drop s ++ r.drop (s + k)
        = (r.take (s + k)).take s ++ (r.take (s + k)).drop s ++ r.drop (s + k) := by rw [h1]
    _ = r.take (s + k) ++ r.drop (s + k) := by rw [List.take_append_drop]
    _ = r := List.take_append_drop _ _

/-- A `text_link` entity splices empty delimiters, leaving the text as-is. -/
lemma spliceEntity_text_link (r : Text) (e : Entity) (h : e.type = "text_link") :
    spliceEntity r e = r := by
  unfold spliceEntity
  rw [h]
  show r.take e.offset ++ [] ++ (r.take (e.offset + e.length)).drop e.offset
      ++ [] ++ r.drop (e.offset + e.length) = r
  simpa using slice_recombine r e.offset e.length

/-- Entities of any non-translated kind (unknown kinds and `text_link`)
leave the text unchanged. -/
lemma spliceEntity_not_translated (e : Entity) (h : translatedKind e.type = false)
    (r : Text) : spliceEntity r e = r := by
  by_cases hl : e.type = "text_link"
  · exact spliceEntity_text_link r e hl
  · have hm : entityMarkers e.type = none := by
      unfold translatedKind at h
      simp only [Bool.or_eq_false_iff, decide_eq_false_iff_not] at h
      obtain ⟨⟨⟨⟨⟨h1, h2⟩, h3⟩, h4⟩, h5⟩, h6⟩ := h
      unfold entityMarkers
      simp [h1, h2, h3, h4, h5, h6, hl]
    unfold spliceEntity
    rw [hm]

/-- Non-translated entities are no-ops in the splicing fold. -/
lemma foldl_splice_skip :
    ∀ (l : List Entity) (t : Text),
    l.foldl spliceEntity t = (l.filter fun e => translatedKind e.type).foldl spliceEntity t := by
  intro l
  induction l with
  | nil => intro t; rfl
  | cons e es ih =>
    intro t
    by_cases he : translatedKind e.type
    · simp only [List.foldl_cons, List.filter_cons, he, if_pos]
      exact ih (spliceEntity t e)
    · have he' : translatedKind e.type = false := by simpa using he
      simp only [List.foldl_cons, List.filter_cons, he', Bool.false_eq_true, if_neg,
        not_false_iff, spliceEntity_not_translated e he' t]
      exact ih t

/-- Inserting an entity whose offset dominates the whole list puts it in
front. -/
lemma orderedInsert_entDesc_front (e : Entity) :
    ∀ (l : List Entity), (∀ z ∈ l, entDesc e z) →
    List.orderedInsert entDesc e l = e :: l := by
  intro l h
  cases l with
  | nil => rfl
  | cons z zs => exact List.orderedInsert_of_le (r := entDesc) zs (h z (List.mem_cons_self z zs))

/-- On a descending-sorted list, filtering commutes with ordered insertion. -/
lemma filter_orderedInsert_entDesc (p : Entity → Bool) (e : Entity) :
    ∀ (l : List Entity), l.Pairwise entDesc →
    (List.orderedInsert entDesc e l).filter p =
      if p e then List.orderedInsert entDesc e (l.filter p) else l.filter p := by
  intro l
  induction l with
  | nil =>
    intro _
    by_cases hp : p e <;> simp [List.orderedInsert, hp]
  | cons x xs ih =>
    intro hs
    have hs' : xs.Pairwise entDesc := (List.pairwise_cons.mp hs).2
    have hxall : ∀ z ∈ xs, entDesc x z := (List.pairwise_cons.mp hs).1
    by_cases hex : entDesc e x
    · rw [List.orderedInsert_of_le (r := entDesc) xs hex]
      by_cases hp : p e
      · by_cases hx : p x
        · simp only [List.filter_cons, hp, hx, if_pos]
          rw [List.orderedInsert_of_le (r := entDesc) (xs.filter p) hex]
        · have hall : ∀ z ∈ xs.filter p, entDesc e z := by
            intro z hz
            exact Nat.le_trans (hxall z (List.mem_of_mem_filter hz)) hex
          simp only [List.filter_cons, hp, hx, Bool.false_eq_true, if_pos, if_neg,
            not_false_iff]
          rw [orderedInsert_entDesc_front e (xs.filter p) hall]
      · simp [List.filter_cons, hp]
    · rw [List.orderedInsert, if_neg hex]
      by_cases hx : p x
      · simp only [List.filter_cons, hx, if_pos, ih hs']
        by_cases hp : p e
        · simp only [hp, if_pos]
          rw [List.orderedInsert, if_neg hex]
        · simp [hp]
      · simp only [List.filter_cons, hx, Bool.false_eq_true, if_neg, not_false_iff, ih hs']

/-- Filtering commutes with the stable descending sort. -/
lemma filter_sortEntitiesDesc (p : Entity → Bool) :
    ∀ (l : List Entity),
    (sortEntitiesDesc l).filter p = sortEntitiesDesc (l.filter p) := by
  intro l
  induction l with
  | nil => rfl
  | cons e es ih =>
    have hs : (sortEntitiesDesc es).Pairwise entDesc :=
      List.sorted_insertionSort entDesc es
    show (List.orderedInsert entDesc e (sortEntitiesDesc es)).filter p
        = sortEntitiesDesc ((e :: es).filter p)
    rw [filter_orderedInsert_entDesc p e (sortEntitiesDesc es) hs, ih]
    by_cases hp : p e
    · simp only [List.filter_cons, hp, if_pos]
      rfl
    · simp [List.filter_cons, hp]

/-- C9 helper: the full parse ignores non-translated entities. -/
lemma parseEntities_filter (t : Text) (es : List Entity) :
    parseEntities t es = parseEntities t (es.filter fun e => translatedKind e.type) := by
  unfold parseEntities
  by_cases h0 : es.isEmpty
  · have : es = [] := List.isEmpty_iff.mp h0
    subst this
    simp
  · rw [if_neg h0, foldl_splice_skip, filter_sortEntitiesDesc]
    by_cases h1 : (es.filter fun e => translatedKind e.type).isEmpty
    · have : es.filter (fun e => translatedKind e.type) = [] := List.isEmpty_iff.mp h1
      rw [this, if_pos]
      · rfl
      · rfl
    · rw [if_neg h1]

/-! ## Claim C2 -/

/-- C2: the normalizer sorts spans by descending offset and splices a
delimiter pair at `[offset, offset+length)` — for any single translated
span the delimiters land exactly at the span's original offsets — and on
`"hello world"` the bold span `{0,5}` yields `"*hello* world"` while the
spans `{0,5,bold}`, `{6,5,italic}` yield `"*hello* _world_"`. -/
theorem entity_span_translation :
    (∀ (t : Text) (e : Entity) (pre suf : Text),
      entityMarkers e.type = some (pre, suf) →
      parseEntities t [e]
        = t.take e.offset ++ pre ++ ((t.take (e.offset + e.length)).drop e.offset)
            ++ suf ++ t.drop (e.offset + e.length))
    ∧ parseEntities "hello world".toList [⟨0, 5, "bold"⟩] = "*hello* world".toList
    ∧ parseEntities "hello world".toList [⟨0, 5, "bold"⟩, ⟨6, 5, "italic"⟩]
        = "*hello* _world_".toList := by
  refine ⟨?_, by decide, by decide⟩
  intro t e pre suf h
  show (sortEntitiesDesc [e]).foldl spliceEntity t = _
  show spliceEntity t e = _
  unfold spliceEntity
  rw [h]

/-- Witness for C2 at a concrete input. -/
theorem entity_span_translation_witness :
    parseEntities "ab".toList [⟨0, 1, "bold"⟩]
      = "ab".toList.take 0 ++ ['*'] ++ (("ab".toList.take (0 + 1)).drop 0)
          ++ ['*'] ++ "ab".toList.drop (0 + 1) :=
  entity_span_translation.1 "ab".toList ⟨0, 1, "bold"⟩ ['*'] ['*'] rfl

/-! ## Claim C9 -/

/-- C9: spans whose kind is not one of the translated kinds (bold, italic,
strikethrough, code, pre, spoiler) — including `text_link`, which passes
through unchanged — leave the text unmodified, while translation of the
remaining spans still applies: parsing any entity list equals parsing only
its translated-kind entities. -/
theorem unknown_spans_skipped (t : Text) (es : List Entity) :
    parseEntities t es = parseEntities t (es.filter fun e => translatedKind e.type) :=
  parseEntities_filter t es

/-! ## Claim C1 -/

/-- Ascending and key-distinct pairwise orders combine to the strict one. -/
lemma pairwise_ctxLT_of_le_ne :
    ∀ {l : List Ctx}, l.Pairwise ctxLE →
      l.Pairwise (fun a b => ctxKey a ≠ ctxKey b) → l.Pairwise ctxLT := by
  intro l
  induction l with
  | nil => intro _ _; exact List.Pairwise.nil
  | cons x xs ih =>
    intro hle hne
    obtain ⟨hle1, hle2⟩ := List.pairwise_cons.mp hle
    obtain ⟨hne1, hne2⟩ := List.pairwise_cons.mp hne
    exact List.pairwise_cons.mpr
      ⟨fun y hy => Nat.lt_of_le_of_ne (hle1 y hy) (hne1 y hy), ih hle2 hne2⟩

/-- With pairwise-distinct message ids, every permutation of an album has
the same sorted form. -/
lemma sortCtx_perm_eq (l l2 : List Ctx) (hperm : l2.Perm l)
    (hnodup : (l.map ctxKey).Nodup) :
    sortCtxByMsgId l2 = sortCtxByMsgId l := by
  have hp2 : (sortCtxByMsgId l2).Perm (sortCtxByMsgId l) :=
    (List.perm_insertionSort ctxLE l2).trans (hperm.trans (List.perm_insertionSort ctxLE l).symm)
  have hnd : l.Pairwise fun a b => ctxKey a ≠ ctxKey b := by
    rw [List.Nodup, List.pairwise_map] at hnodup
    exact hnodup
  have hndS : (sortCtxByMsgId l).Pairwise fun a b => ctxKey a ≠ ctxKey b :=
    ((List.perm_insertionSort ctxLE l).pairwise_iff (fun h => Ne.symm h)).mpr hnd
  have hndS2 : (sortCtxByMsgId l2).Pairwise fun a b => ctxKey a ≠ ctxKey b :=
    (hp2.pairwise_iff (fun h => Ne.symm h)).mpr hndS
  have hlt : List.Sorted ctxLT (sortCtxByMsgId l) :=
    pairwise_ctxLT_of_le_ne (List.sorted_insertionSort ctxLE l) hndS
  have hlt2 : List.Sorted ctxLT (sortCtxByMsgId l2) :=
    pairwise_ctxLT_of_le_ne (List.sorted_insertionSort ctxLE l2) hndS2
  exact List.eq_of_perm_of_sorted hp2 hlt2 hlt

/-- C1: when an album's members (with pairwise-distinct message ids) arrive
in any permutation, the flush dispatches them in ascending message-id
order: the dispatch initiations are exactly the payloads of the
canonically sorted member list, which is a permutation of the album sorted
ascending by message id. -/
theorem album_dispatch_order (fetch : String → String) (s : Settings)
    (l l2 : List Ctx) (gid : Text)
    (hperm : l2.Perm l)
    (hnodup : (l.map ctxKey).Nodup)
    (hgid : effectiveGroupId s = some gid) :
    (processMediaGroup fetch s l2).dispatches
      = (((sortCtxByMsgId l).map (buildPayload fetch s)).filterMap id).map (fun p => (gid, p))
    ∧ (sortCtxByMsgId l).Perm l
    ∧ List.Sorted ctxLE (sortCtxByMsgId l) := by
  refine ⟨?_, List.perm_insertionSort ctxLE l, List.sorted_insertionSort ctxLE l⟩
  simp only [processMediaGroup, hgid, sortCtx_perm_eq l l2 hperm hnodup]

/-- Witness for C1: a two-member album arriving in reversed order is
dispatched sorted. -/
theorem album_dispatch_order_witness :
    (processMediaGroup fetch0 sGrp [ctxEx 2, ctxEx 1]).dispatches
      = (((sortCtxByMsgId [ctxEx 1, ctxEx 2]).map (buildPayload fetch0 sGrp)).filterMap id).map
          (fun p => ("g".toList, p)) :=
  (album_dispatch_order fetch0 sGrp [ctxEx 1, ctxEx 2] [ctxEx 2, ctxEx 1] "g".toList
    (List.Perm.swap (ctxEx 1) (ctxEx 2) []) (by decide) (by decide)).1

/-! ## Claim C3 -/

/-- C3: on every payload kind the text is the footer-free base text with
`footerOf` appended — so an empty footer never adds a blank-line suffix,
and a non-empty footer is always appended after exactly one blank line
(`"\n\n"`), including on captions of attachment payloads. -/
theorem footer_suffix (fetch : String → String) (s : Settings) (c : Ctx) (p : Payload)
    (h : buildPayload fetch s c = some p) :
    p.text = (payloadBaseText c).getD [] ++ footerOf s
    ∧ (s.footerText = [] → footerOf s = [])
    ∧ (s.footerText ≠ [] → footerOf s = '\n' :: '\n' :: s.footerText) := by
  refine ⟨?_, fun h0 => by simp [footerOf, h0], fun h0 => by simp [footerOf, h0]⟩
  obtain ⟨cm, cp⟩ := c
  rcases cm with _ | msg
  · rcases cp with _ | msg
    · exact absurd h (by simp [buildPayload, ctxMsg])
    · obtain ⟨mid, mtext, ment, mcap, mcapent, mphoto, mdoc, mvid, mstick, manim, maud, mvoice⟩ := msg
      rcases mtext with _ | t
      case some =>
        cases h
        rfl
      rcases mphoto with _ | sizes
      case some =>
        cases h
        rcases mcap with _ | cap
        · rfl
        · rfl
      rcases mdoc with _ | d
      case some =>
        cases h
        rcases mcap with _ | cap
        · rfl
        · rfl
      rcases mvid with _ | v
      case some =>
        cases h
        rcases mcap with _ | cap
        · rfl
        · rfl
      rcases mstick with _ | st
      case some =>
        cases h
        simp [payloadBaseText, ctxMsg]
      rcases manim with _ | a
      case some =>
        cases h
        by_cases hf : footerOf s = [] <;> simp [payloadBaseText, ctxMsg, hf]
      rcases maud with _ | a
      case some =>
        cases h
        rcases mcap with _ | cap
        · rfl
        · rfl
      rcases mvoice with _ | v
      case some =>
        cases h
        rcases mcap with _ | cap
        · rfl
        · rfl
      exact absurd h (by simp [buildPayload, ctxMsg])
  · obtain ⟨mid, mtext, ment, mcap, mcapent, mphoto, mdoc, mvid, mstick, manim, maud, mvoice⟩ := msg
    rcases mtext with _ | t
    case some =>
      cases h
      rfl
    rcases mphoto with _ | sizes
    case some =>
      cases h
      rcases mcap with _ | cap
      · rfl
      · rfl
    rcases mdoc with _ | d
    case some =>
      cases h
      rcases mcap with _ | cap
      · rfl
      · rfl
    rcases mvid with _ | v
    case some =>
      cases h
      rcases mcap with _ | cap
      · rfl
      · rfl
    rcases mstick with _ | st
    case some =>
      cases h
      simp [payloadBaseText, ctxMsg]
    rcases manim with _ | a
    case some =>
      cases h
      by_cases hf : footerOf s = [] <;> simp [payloadBaseText, ctxMsg, hf]
    rcases maud with _ | a
    case some =>
      cases h
      rcases mcap with _ | cap
      · rfl
      · rfl
    rcases mvoice with _ | v
    case some =>
      cases h
      rcases mcap with _ | cap
      · rfl
      · rfl
    exact absurd h (by simp [buildPayload, ctxMsg])

/-- Witness for C3: a caption-bearing attachment payload gets the footer
after exactly one blank line. -/
theorem footer_suffix_witness :
    pPhoto.text = (payloadBaseText ctxPhoto).getD [] ++ footerOf sFoot :=
  (footer_suffix fetch0 sFoot ctxPhoto pPhoto (by decide)).1

/-! ## Claim C4 -/

/-- C4 counterexample: with the destination ready and the send failing, the
dispatched payload is neither delivered nor placed in the delivery queue —
it is lost (only an error is logged). -/
theorem dispatch_silent_loss_counterexample :
    ¬ ((dispatchPayload "ready" false ['g'] pay0 []).sentOk = true
       ∨ (dispatchPayload "ready" false ['g'] pay0 []).queueAfter ≠ []) := by
  decide

/-- C4 amended: every dispatch either succeeds, or is enqueued (destination
not ready), or — when a ready-state send attempt fails — is dropped with
the error caught and logged and the queue unchanged. -/
theorem dispatch_no_silent_loss_amended (status : String) (sendOk : Bool)
    (gid : Text) (p : Payload) (q : List QueueEntry) :
    (dispatchPayload status sendOk gid p q).sentOk = true
    ∨ (dispatchPayload status sendOk gid p q).queueAfter
        = q ++ [{ chatId := gid, text := p.text, media := p.media }]
    ∨ ((dispatchPayload status sendOk gid p q).errorLogged = true
        ∧ (dispatchPayload status sendOk gid p q).queueAfter = q) := by
  by_cases h : waIsReady status
  · cases sendOk
    · right; right; simp [dispatchPayload, h]
    · left; simp [dispatchPayload, h]
  · right; left
    simp [dispatchPayload, h]

/-! ## Claim C6 -/

/-- C6: with a configured destination, the dispatcher sends immediately
(without touching the queue) when the connection is ready, and otherwise
enqueues the payload (without attempting a send). -/
theorem dispatch_ready_decision (status : String) (sendOk : Bool) (gid : Text)
    (p : Payload) (q : List QueueEntry) :
    (waIsReady status = true →
      (dispatchPayload status sendOk gid p q).sendAttempted = true
      ∧ (dispatchPayload status sendOk gid p q).queueAfter = q)
    ∧ (waIsReady status = false →
      (dispatchPayload status sendOk gid p q).sendAttempted = false
      ∧ (dispatchPayload status sendOk gid p q).queueAfter
          = q ++ [{ chatId := gid, text := p.text, media := p.media }]) := by
  constructor
  · intro h
    cases sendOk <;> simp [dispatchPayload, h]
  · intro h
    simp [dispatchPayload, h]

/-- Witness for C6 at the ready and disconnected statuses. -/
theorem dispatch_ready_decision_witness :
    ((dispatchPayload "ready" true ['g'] pay0 []).sendAttempted = true
      ∧ (dispatchPayload "ready" true ['g'] pay0 []).queueAfter = [])
    ∧ ((dispatchPayload "disconnected" true ['g'] pay0 []).sendAttempted = false
      ∧ (dispatchPayload "disconnected" true ['g'] pay0 []).queueAfter
          = [{ chatId := ['g'], text := pay0.text, media := pay0.media }]) :=
  ⟨(dispatch_ready_decision "ready" true ['g'] pay0 []).1 (by decide),
   (dispatch_ready_decision "disconnected" true ['g'] pay0 []).2 (by decide)⟩

/-! ## Claim C5 -/

/-- C5: every transition into the `ready` status invokes `onWhatsAppReady`
— and hence the delivery-queue flush — exactly once; when a flush is
already in progress the guarded flush starts no second loop, and when none
is in progress exactly one loop starts. -/
theorem ready_flush_guard (send : QueueEntry → Bool) (status : String)
    (st : ServerState) :
    ((setStatusWrapped send status st).2.1 = if status = "ready" then 1 else 0)
    ∧ (status = "ready" → st.queue.flushing = false →
        (setStatusWrapped send status st).2.2 = 1)
    ∧ (st.queue.flushing = true → (setStatusWrapped send status st).2.2 = 0) := by
  refine ⟨?_, ?_, ?_⟩
  · by_cases h : status = "ready" <;> simp [setStatusWrapped, h]
  · intro h1 h2
    simp [setStatusWrapped, flushQueue, h1, h2]
  · intro hf
    by_cases h : status = "ready" <;> simp [setStatusWrapped, flushQueue, h, hf]

/-- Witness for C5: one flush starts when idle, none when already flushing. -/
theorem ready_flush_guard_witness :
    (setStatusWrapped sendAllOk "ready" stIdle).2.2 = 1
    ∧ (setStatusWrapped sendAllOk "ready" stBusy).2.2 = 0 :=
  ⟨(ready_flush_guard sendAllOk "ready" stIdle).2.1 rfl rfl,
   (ready_flush_guard sendAllOk "ready" stBusy).2.2 rfl⟩

/-! ## Claim C10 -/

/-- C10: `WhatsAppManager.sendMessage` throws before any client interaction
whenever the status is not `'ready'`; a client send is issued only in the
`'ready'` status. -/
theorem send_requires_ready :
    (∀ (status : String) (chatId body : Text) (media : Option Media),
      status ≠ "ready" →
      waSendMessage status chatId body media = .error "WhatsApp לא מחובר")
    ∧ (∀ (status : String) (chatId body : Text) (media : Option Media)
        (call : ClientCall),
      waSendMessage status chatId body media = .ok call → status = "ready") := by
  constructor
  · intro status c b m h
    simp [waSendMessage, h]
  · intro status c b m call h
    by_cases hs : status = "ready"
    · exact hs
    · simp [waSendMessage, hs] at h

/-- Witness for C10: a disconnected manager throws without sending. -/
theorem send_requires_ready_witness :
    waSendMessage "disconnected" ['g'] [] none = .error "WhatsApp לא מחובר" :=
  send_requires_ready.1 "disconnected" ['g'] [] none (by decide)

/-! ## Claim C7 -/

/-- While every gap stays under the debounce window, the fold only extends
the active buffer and keeps resetting the deadline. -/
lemma debFold_within {α : Type} :
    ∀ (l : List (Nat × α)) (tPrev : Nat) (buf : List α) (out : List (List α)),
    gapsOkB tPrev l = true →
    l.foldl debStep (some (buf, tPrev + debounceMs), out)
      = (some (buf ++ l.map Prod.snd, lastT tPrev l + debounceMs), out) := by
  intro l
  induction l with
  | nil =>
    intro tPrev buf out _
    simp [lastT]
  | cons a rest ih =>
    intro tPrev buf out h
    obtain ⟨t, m⟩ := a
    rw [gapsOkB, Bool.and_eq_true, decide_eq_true_eq] at h
    obtain ⟨h1, h2⟩ := h
    rw [List.foldl_cons]
    have hstep : debStep (some (buf, tPrev + debounceMs), out) (t, m)
        = (some (buf ++ [m], t + debounceMs), out) := by
      simp [debStep, if_neg (Nat.lt_asymm h1)]
    rw [hstep, ih t (buf ++ [m]) out h2]
    simp [lastT, List.append_assoc]

/-- C7: for one album group key, members spaced under the 2000 ms debounce
window yield exactly one flush holding all of them, while one gap beyond
the window splits the arrivals into exactly two flushes. -/
theorem debounce_flush_groups {α : Type} :
    (∀ (t : Nat) (m : α) (rest : List (Nat × α)), gapsOkB t rest = true →
      runDebounce ((t, m) :: rest) = [m :: rest.map Prod.snd])
    ∧ (∀ (t1 : Nat) (m1 : α) (r1 : List (Nat × α)) (t2 : Nat) (m2 : α)
        (r2 : List (Nat × α)),
      gapsOkB t1 r1 = true → gapsOkB t2 r2 = true →
      lastT t1 r1 + debounceMs < t2 →
      runDebounce (((t1, m1) :: r1) ++ (t2, m2) :: r2)
        = [m1 :: r1.map Prod.snd, m2 :: r2.map Prod.snd]) := by
  constructor
  · intro t m rest h
    unfold runDebounce
    rw [List.foldl_cons]
    have h0 : debStep ((none : Option (List α × Nat)), ([] : List (List α))) (t, m)
        = (some ([m], t + debounceMs), []) := rfl
    rw [h0, debFold_within rest t [m] [] h]
    simp
  · intro t1 m1 r1 t2 m2 r2 h1 h2 hgap
    unfold runDebounce
    have hfirst : List.foldl debStep
          ((none : Option (List α × Nat)), ([] : List (List α))) ((t1, m1) :: r1)
        = (some ([m1] ++ r1.map Prod.snd, lastT t1 r1 + debounceMs), []) := by
      rw [List.foldl_cons]
      have h0 : debStep ((none : Option (List α × Nat)), ([] : List (List α))) (t1, m1)
          = (some ([m1], t1 + debounceMs), []) := rfl
      rw [h0, debFold_within r1 t1 [m1] [] h1]
    rw [List.foldl_append, hfirst, List.foldl_cons]
    have hfire : debStep (some ([m1] ++ r1.map Prod.snd, lastT t1 r1 + debounceMs),
          ([] : List (List α))) (t2, m2)
        = (some ([m2], t2 + debounceMs), [[m1] ++ r1.map Prod.snd]) := by
      simp [debStep, if_pos hgap]
    rw [hfire, debFold_within r2 t2 [m2] _ h2]
    simp

/-- Witness for C7: three close arrivals flush once; a 2500 ms gap flushes
twice. -/
theorem debounce_flush_groups_witness :
    runDebounce [((0 : Nat), (10 : Nat)), (1500, 11), (2500, 12)] = [[10, 11, 12]]
    ∧ runDebounce [((0 : Nat), (1 : Nat)), (5000, 2)] = [[1], [2]] :=
  ⟨(debounce_flush_groups (α := Nat)).1 0 10 [(1500, 11), (2500, 12)] (by decide),
   (debounce_flush_groups (α := Nat)).2 0 1 [] 5000 2 [] rfl rfl (by decide)⟩

/-! ## Claim C8 -/

/-- C8 counterexample: with a blank destination id the album flush drops
everything — nothing dispatched, and no warning-level log is emitted (only
the routine info log); the single-message path drops with no log at all. -/
theorem config_drop_counterexample :
    (processMediaGroup fetch0 sBlank [ctxEx 1]).dispatches = []
    ∧ (processMediaGroup fetch0 sBlank [ctxEx 1]).logs = [("info", "processing_album")]
    ∧ processSingleMessage fetch0 sBlank (ctxEx 1) = ([], []) := by
  decide

/-- C8 amended: when the destination id is unset or blank at flush time the
entire album is dropped — nothing sent or enqueued — but without any
warning log (only the routine info log is written); a single message is
likewise dropped silently, with no log at all. -/
theorem config_drop_amended (fetch : String → String) (s : Settings)
    (l : List Ctx) (c : Ctx) (h : effectiveGroupId s = none) :
    (processMediaGroup fetch s l).dispatches = []
    ∧ (processMediaGroup fetch s l).logs = [("info", "processing_album")]
    ∧ processSingleMessage fetch s c = ([], []) := by
  refine ⟨?_, ?_, ?_⟩ <;> simp [processMediaGroup, processSingleMessage, h]

/-- Witness for C8's amended statement at a concrete blank configuration. -/
theorem config_drop_amended_witness :
    (processMediaGroup fetch0 sBlank [ctxEx 2]).dispatches = []
    ∧ (processMediaGroup fetch0 sBlank [ctxEx 2]).logs = [("info", "processing_album")]
    ∧ processSingleMessage fetch0 sBlank (ctxEx 2) = ([], []) :=
  config_drop_amended fetch0 sBlank [ctxEx 2] (ctxEx 2) (by decide)

end Bridge

